import Mathlib

/-!
Verification development for the resilient task-progress streaming subsystem:
the `useWebSocket` hook (shallowly embedded in namespace `WS`), the
`useTaskStream` SSE hook (namespace `TS`), and the `useBatchTaskStream`
aggregator (namespace `Batch`).  All definitions are executable translations
of the TypeScript source; React state setters are modelled as sequential
field updates on an explicit state record, and timers as armed/deadline
fields.  Wall-clock reads (`Date.now()`) become explicit `now` parameters.
Randomness (connection ids) and floating-point square roots (the jitter and
quality score) are not representable exactly; the jitter is tracked by its
radicand (`jitterSq`) and the quality score is omitted, with the underlying
latency list and its mean modelled exactly.
-/

namespace WS

/-- Connection statistics counters, from `ConnectionStatistics` in
`shared/constants/websocket-types.ts`.  `currentConnections` is decremented
on close and can go negative in the source, hence `Int`.  Duration
accumulators use `ℚ` since the source divides them. -/
structure ConnectionStatistics where
  totalConnections : Nat
  successfulConnections : Nat
  failedConnections : Nat
  reconnections : Nat
  currentConnections : Int
  messagesSent : Nat
  messagesReceived : Nat
  bytesSent : Nat
  bytesReceived : Nat
  totalConnectionTime : ℚ
  averageConnectionTime : ℚ
  connectionErrors : Nat
  messageErrors : Nat
  timeoutErrors : Nat
  authErrors : Nat
deriving Repr, DecidableEq

/-- The all-zero statistics record used by `useState` initialisation and
`resetStatistics`. -/
def initialStatistics : ConnectionStatistics :=
  { totalConnections := 0, successfulConnections := 0, failedConnections := 0
    reconnections := 0, currentConnections := 0, messagesSent := 0
    messagesReceived := 0, bytesSent := 0, bytesReceived := 0
    totalConnectionTime := 0, averageConnectionTime := 0
    connectionErrors := 0, messageErrors := 0, timeoutErrors := 0
    authErrors := 0 }

/-- Connection quality.  The source computes `jitter` with `Math.sqrt` and a
`qualityScore` from it (floating point); we track the radicand `jitterSq`
exactly instead. -/
structure ConnectionQuality where
  latency : ℚ
  packetLoss : ℚ
  jitterSq : ℚ
  bandwidth : ℚ
deriving Repr, DecidableEq

/-- Initial quality state.  The source also stores `qualityScore: 100`. -/
def initialQuality : ConnectionQuality :=
  { latency := 0, packetLoss := 0, jitterSq := 0, bandwidth := 0 }

/-- A parsed inbound or outbound message.  Fields the hook reads are kept;
`Option` models a field that is absent or not of the checked type (the
`typeof` guards in `isWebSocketMessage`).  `errorMsg` is `some` exactly when
the JS `message.error` object is present and truthy. -/
structure WSMessage where
  type : Option String
  timestamp : Option Int
  messageId : Option String
  requestId : Option String
  errorMsg : Option String
  data : Option String
deriving Repr, DecidableEq

/-- `isWebSocketMessage` from `websocket-types.ts`: requires `type`
(string), `timestamp` (number) and `messageId` (string). -/
def isWebSocketMessage (m : WSMessage) : Bool :=
  m.type.isSome && m.timestamp.isSome && m.messageId.isSome

/-- A raw frame delivered by the transport: either text that fails
`JSON.parse`, or a parsed message.  `size` is `event.data.length`. -/
inductive RawFrame where
  | malformed (size : Nat)
  | parsed (m : WSMessage) (size : Nat)
deriving Repr, DecidableEq

/-- An entry of `pendingMessagesRef`: the stored message and whether its
per-request timeout timer is still armed. -/
structure PendingEntry where
  message : WSMessage
  timerArmed : Bool
deriving Repr, DecidableEq

/-- Merged configuration: `DEFAULT_WEBSOCKET_CONFIG` fields used by the hook
logic plus the hook options (`enableAutoReconnect`, `enableHeartbeat`,
`enableStatistics`). -/
structure WSConfig where
  autoReconnect : Bool
  maxReconnectAttempts : Nat
  reconnectInterval : ℚ
  reconnectBackoffFactor : ℚ
  maxReconnectInterval : ℚ
  heartbeatInterval : Nat
  heartbeatTimeout : Nat
  messageTimeout : Nat
  connectionTimeout : Nat
  enableAutoReconnect : Bool
  enableHeartbeat : Bool
  enableStatistics : Bool
deriving Repr, DecidableEq

/-- `DEFAULT_WEBSOCKET_CONFIG` values together with the default hook
options (all three enable flags default to `true`). -/
def defaultConfig : WSConfig :=
  { autoReconnect := true, maxReconnectAttempts := 5
    reconnectInterval := 3000, reconnectBackoffFactor := 3/2
    maxReconnectInterval := 30000
    heartbeatInterval := 30000, heartbeatTimeout := 5000
    messageTimeout := 10000, connectionTimeout := 10000
    enableAutoReconnect := true, enableHeartbeat := true
    enableStatistics := true }

/-- `WebSocketConnectionStatus` from `websocket-types.ts`. -/
inductive WSStatus where
  | connecting
  | connected
  | disconnecting
  | disconnected
  | reconnecting
  | error
deriving Repr, DecidableEq

/-- An error surfaced through `setError` (code plus message). -/
structure WSError where
  code : String
  message : String
deriving Repr, DecidableEq

/-- The full state of one `useWebSocket` hook instance: React state,
refs, and timer handles (modelled as armed flags; the reconnect timer
also records the computed delay). -/
structure WSState where
  status : WSStatus
  isConnected : Bool
  isConnecting : Bool
  error : Option WSError
  wsPresent : Bool
  wsOpen : Bool
  reconnectTimeout : Option ℚ
  heartbeatIntervalArmed : Bool
  heartbeatTimeoutArmed : Bool
  pingTimeoutArmed : Bool
  connTimeoutArmed : Bool
  messageQueue : List WSMessage
  pendingMessages : List (String × PendingEntry)
  reconnectAttempts : Nat
  stats : ConnectionStatistics
  quality : ConnectionQuality
  latencyMeasurements : List Int
  lastHeartbeatTime : Nat
  lastMessageTime : Option Nat
  connectionStartTime : Nat
  connectTime : Option Nat
deriving Repr, DecidableEq

/-- The state right after the hook mounts. -/
def initialState : WSState :=
  { status := .disconnected, isConnected := false, isConnecting := false
    error := none, wsPresent := false, wsOpen := false
    reconnectTimeout := none, heartbeatIntervalArmed := false
    heartbeatTimeoutArmed := false, pingTimeoutArmed := false
    connTimeoutArmed := false, messageQueue := [], pendingMessages := []
    reconnectAttempts := 0, stats := initialStatistics
    quality := initialQuality, latencyMeasurements := []
    lastHeartbeatTime := 0, lastMessageTime := none
    connectionStartTime := 0, connectTime := none }

/-- `updateStatistics`: applies the mutation only when statistics are
enabled. -/
def updateStatistics (cfg : WSConfig) (s : WSState)
    (f : ConnectionStatistics → ConnectionStatistics) : WSState :=
  if cfg.enableStatistics then { s with stats := f s.stats } else s

/-- `stopHeartbeat`: clears the heartbeat emitter interval, the heartbeat
timeout and the ping timeout. -/
def stopHeartbeat (s : WSState) : WSState :=
  { s with heartbeatIntervalArmed := false, heartbeatTimeoutArmed := false
           pingTimeoutArmed := false }

/-- `startHeartbeat`: arms the heartbeat emitter interval when enabled. -/
def startHeartbeat (cfg : WSConfig) (s : WSState) : WSState :=
  if cfg.enableHeartbeat then { s with heartbeatIntervalArmed := true } else s

/-- `updateQuality`: push the latency sample, keep the last 10, recompute
the mean and the (squared) jitter. -/
def updateQuality (s : WSState) (latency : Int) : WSState :=
  let lm1 := s.latencyMeasurements ++ [latency]
  let lm := if lm1.length > 10 then lm1.tail else lm1
  let avg : ℚ := (lm.foldl (fun acc l => acc + (l : ℚ)) 0) / (lm.length : ℚ)
  let jsq : ℚ :=
    if lm.length > 1 then
      (lm.foldl (fun acc l => acc + ((l : ℚ) - avg) ^ 2) 0) / ((lm.length : ℚ) - 1)
    else 0
  { s with latencyMeasurements := lm
           quality := { latency := avg, packetLoss := 0, jitterSq := jsq
                        bandwidth := 0 } }

/-- Pure reconnect-delay function extracted from `handleReconnect`:
`min(reconnectInterval * factor ^ (attempt - 1), maxReconnectInterval)`,
where `attempt` is the value of `reconnectAttemptsRef` after the increment
(so the first retry has `attempt = 1` and exponent `0`). -/
def reconnectDelay (cfg : WSConfig) (attempt : Nat) : ℚ :=
  min (cfg.reconnectInterval * cfg.reconnectBackoffFactor ^ (attempt - 1))
    cfg.maxReconnectInterval

/-- The delay formula as the specification words it:
`min(baseDelay * factor ^ attempt, maxDelay)`.  Used only to compare the
spec against `reconnectDelay`. -/
def specDelay (cfg : WSConfig) (attempt : Nat) : ℚ :=
  min (cfg.reconnectInterval * cfg.reconnectBackoffFactor ^ attempt)
    cfg.maxReconnectInterval

/-- `handleReconnect`: increment the attempt counter, compute the backoff
delay, enter `reconnecting` and arm the reconnect timer. -/
def handleReconnect (cfg : WSConfig) (s : WSState) : WSState :=
  let attempts := s.reconnectAttempts + 1
  { s with reconnectAttempts := attempts, status := .reconnecting
           reconnectTimeout := some (reconnectDelay cfg attempts) }

/-- `handleOpen`: enter `connected`, reset the attempt counter, update
statistics, flush the outbound queue (sent directly on the socket, without
touching the sent-message counters), and start the heartbeat. -/
def handleOpen (cfg : WSConfig) (now : Nat) (s : WSState) : WSState :=
  let dur : ℚ := (now : ℚ) - (s.connectionStartTime : ℚ)
  let s := { s with connectTime := some now, status := .connected
                    isConnected := true, isConnecting := false, error := none
                    wsOpen := true, reconnectAttempts := 0 }
  let s := updateStatistics cfg s fun st =>
    let st := { st with successfulConnections := st.successfulConnections + 1
                        totalConnections := st.totalConnections + 1
                        currentConnections := st.currentConnections + 1
                        totalConnectionTime := st.totalConnectionTime + dur }
    { st with averageConnectionTime :=
        st.totalConnectionTime / (st.totalConnections : ℚ) }
  let s := { s with messageQueue := [] }
  startHeartbeat cfg s

/-- `handleClose`: enter `disconnected`, update statistics, stop the
heartbeat, and schedule a reconnect when auto-reconnect is on, the close
was not clean and attempts remain. -/
def handleClose (cfg : WSConfig) (now : Nat) (wasClean : Bool)
    (s : WSState) : WSState :=
  let dur : ℚ := (now : ℚ) - (s.connectionStartTime : ℚ)
  let s := { s with status := .disconnected, isConnected := false
                    isConnecting := false, wsOpen := false }
  let s := updateStatistics cfg s fun st =>
    let st := { st with currentConnections := st.currentConnections - 1
                        totalConnectionTime := st.totalConnectionTime + dur }
    { st with averageConnectionTime :=
        st.totalConnectionTime / (max 1 (st.totalConnections : ℚ)) }
  let s := stopHeartbeat s
  if cfg.enableAutoReconnect && !wasClean
      && s.reconnectAttempts < cfg.maxReconnectAttempts then
    handleReconnect cfg s
  else s

/-- `handleError`: enter the `error` status and record a
`CONNECTION_FAILED` error. -/
def handleError (cfg : WSConfig) (s : WSState) : WSState :=
  let s := { s with status := .error, isConnecting := false
                    isConnected := false
                    error := some { code := "CONNECTION_FAILED"
                                    message := "WebSocket connection failed" } }
  updateStatistics cfg s fun st =>
    { st with connectionErrors := st.connectionErrors + 1 }

/-- Callbacks raised by one `handleMessage` invocation. -/
structure MsgEffects where
  onMessage : Option WSMessage
  onHeartbeat : Option Int
  pendingResolved : Option String
  pendingRejected : Option String
deriving Repr, DecidableEq

/-- No callbacks raised. -/
def noEffects : MsgEffects :=
  { onMessage := none, onHeartbeat := none, pendingResolved := none
    pendingRejected := none }

/-- `handleMessage`: record the arrival time; on parse failure count a
message error; drop frames failing `isWebSocketMessage`; consume `pong`
frames into a quality update plus the heartbeat callback; match replies to
pending requests by `requestId`; otherwise deliver to `onMessage`. -/
def handleMessage (cfg : WSConfig) (now : Nat) (s : WSState)
    (frame : RawFrame) : WSState × MsgEffects :=
  let s := { s with lastMessageTime := some now }
  match frame with
  | .malformed _ =>
    (updateStatistics cfg s fun st =>
      { st with messageErrors := st.messageErrors + 1 }, noEffects)
  | .parsed m size =>
    if !isWebSocketMessage m then (s, noEffects)
    else
      let s := updateStatistics cfg s fun st =>
        { st with messagesReceived := st.messagesReceived + 1
                  bytesReceived := st.bytesReceived + size }
      if m.type = some "pong" then
        let latency : Int := (now : Int) - (s.lastHeartbeatTime : Int)
        (updateQuality s latency, { noEffects with onHeartbeat := some latency })
      else
        match m.requestId with
        | some rid =>
          if rid ≠ "" && (s.pendingMessages.lookup rid).isSome then
            let s := { s with pendingMessages :=
              s.pendingMessages.filter (fun p => p.1 != rid) }
            if m.errorMsg.isSome then
              (s, { noEffects with pendingRejected := some rid })
            else
              (s, { noEffects with pendingResolved := some rid })
          else (s, { noEffects with onMessage := some m })
        | none => (s, { noEffects with onMessage := some m })

/-- `connect`: a no-op when the socket is already open or a connection is
in progress; otherwise enter `connecting`, create the socket and arm the
connection-establishment timeout (whose handle the source discards, so
nothing can clear it). -/
def connect (_cfg : WSConfig) (now : Nat) (s : WSState) : WSState :=
  if s.wsPresent && s.wsOpen then s
  else if s.isConnecting then s
  else
    { s with isConnecting := true, status := .connecting
             connectionStartTime := now, wsPresent := true, wsOpen := false
             connTimeoutArmed := true }

/-- `disconnect`: clear the reconnect timer, abort in-flight work, stop the
heartbeat timers, close and drop the socket, and reset the connection
state.  The pending-request map and the connection-establishment timeout
are not touched. -/
def disconnect (s : WSState) : WSState :=
  let s := { s with reconnectTimeout := none }
  let s := stopHeartbeat s
  let s := { s with wsPresent := false, wsOpen := false }
  { s with status := .disconnected, isConnected := false
           isConnecting := false, error := none }

/-- Outcome of one `send` call, as seen by the caller of the returned
promise. -/
inductive SendOutcome where
  | rejectedQueued
  | rejectedNotConnected
  | resolved
  | pendingArmed (rid : String)
deriving Repr, DecidableEq

/-- Whether the outcome rejects the promise synchronously. -/
def SendOutcome.isRejection : SendOutcome → Bool
  | .rejectedQueued => true
  | .rejectedNotConnected => true
  | _ => false

/-- Map-set semantics of `pendingMessagesRef.current.set`. -/
def setPending (rid : String) (e : PendingEntry)
    (l : List (String × PendingEntry)) : List (String × PendingEntry) :=
  if (l.lookup rid).isSome then
    l.map fun p => if p.1 = rid then (rid, e) else p
  else l ++ [(rid, e)]

/-- `send`: when the socket is not open, append to the (unbounded) queue
and reject with a queued-message error when auto-reconnect is on, else
reject outright; when open, transmit, update counters, and either arm a
pending request keyed by `requestId` or resolve immediately.  `size` is
`JSON.stringify(message).length`. -/
def send (cfg : WSConfig) (_now : Nat) (s : WSState) (m : WSMessage)
    (size : Nat) : WSState × SendOutcome :=
  if !(s.wsPresent && s.wsOpen) then
    if cfg.autoReconnect then
      ({ s with messageQueue := s.messageQueue ++ [m] }, .rejectedQueued)
    else (s, .rejectedNotConnected)
  else
    let s := updateStatistics cfg s fun st =>
      { st with messagesSent := st.messagesSent + 1
                bytesSent := st.bytesSent + size }
    match m.requestId with
    | some rid =>
      if rid ≠ "" then
        let pm := setPending rid { message := m, timerArmed := true }
          s.pendingMessages
        ({ s with pendingMessages := pm }, .pendingArmed rid)
      else (s, .resolved)
    | none => (s, .resolved)

/-- External events driving one hook instance. -/
inductive WSEv where
  | opened (now : Nat)
  | closed (now : Nat) (wasClean : Bool)
  | errored
  | timerFire (now : Nat)
  | message (now : Nat) (frame : RawFrame)
  | userDisconnect
  | userSend (now : Nat) (m : WSMessage) (size : Nat)
  | userConnect (now : Nat)
deriving Repr, DecidableEq

/-- One dispatched callback invocation. -/
def step (cfg : WSConfig) (s : WSState) : WSEv → WSState
  | .opened now => handleOpen cfg now s
  | .closed now wasClean => handleClose cfg now wasClean s
  | .errored => handleError cfg s
  | .timerFire now =>
    if s.reconnectTimeout.isSome then
      connect cfg now { s with reconnectTimeout := none }
    else s
  | .message now f => (handleMessage cfg now s f).1
  | .userDisconnect => disconnect s
  | .userSend now m size => (send cfg now s m size).1
  | .userConnect now => connect cfg now s

/-- Run a sequence of events from a state. -/
def run (cfg : WSConfig) (s : WSState) (evs : List WSEv) : WSState :=
  evs.foldl (step cfg) s

end WS

namespace TS

/-- `TaskStatus` from `frontend/src/types/index.ts`. -/
inductive TaskStatus where
  | pending
  | queued
  | running
  | completed
  | failed
  | cancelled
  | retrying
  | paused
deriving Repr, DecidableEq

/-- JS truthiness of an optional string (`undefined` and the empty string
are falsy). -/
def truthyStr : Option String → Bool
  | some s => s ≠ ""
  | none => false

/-- JS truthiness of an optional number (`undefined` and `0` are falsy). -/
def truthyNat : Option Nat → Bool
  | some n => n ≠ 0
  | none => false

/-- The task snapshot fields that `useTaskStream` reads or writes.  JS can
leave `status` undefined, hence `Option`.  Timestamps are modelled as
epoch numbers. -/
structure Task where
  status : Option TaskStatus
  progress : Int
  currentStep : Option String
  startTime : Option Nat
  endTime : Option Nat
  errorMessage : Option String
  duration : Option Nat
  outputData : Option String
deriving Repr, DecidableEq

/-- Whether a snapshot status is terminal in the sense of the data model
(`completed`, `failed` or `cancelled`). -/
def isTerminal (st : Option TaskStatus) : Bool :=
  st = some .completed || st = some .failed || st = some .cancelled

/-- The `data` payload of one SSE event, with every field the handlers
read, `Option` marking absence (or, for `progressNum`, a non-number). -/
structure SSEPayload where
  progressNum : Option Int
  status : Option TaskStatus
  errorMessage : Option String
  step : Option String
  errorField : Option String
  message : Option String
  result : Option String
  tsField : Option Nat
  duration : Option Nat
deriving Repr, DecidableEq

/-- A payload with every field absent. -/
def emptyPayload : SSEPayload :=
  { progressNum := none, status := none, errorMessage := none, step := none
    errorField := none, message := none, result := none, tsField := none
    duration := none }

/-- A parsed SSE event envelope. -/
structure SSERec where
  type : Option String
  timestamp : Option Nat
  taskId : String
  data : SSEPayload
deriving Repr, DecidableEq

/-- A raw SSE frame: either text that fails `JSON.parse`, or a parsed
event. -/
inductive RawSSE where
  | malformed
  | evt (e : SSERec)
deriving Repr, DecidableEq

/-- The validation guard in `handleEvent`:
`!sseEvent.type || !sseEvent.timestamp` drops the frame, so a missing or
empty `type` and a missing or zero `timestamp` are both invalid. -/
def validSSE (e : SSERec) : Bool :=
  truthyStr e.type && truthyNat e.timestamp

/-- `useTaskStream` options that the logic branches on, with their
defaults. -/
structure TSConfig where
  autoReconnect : Bool
  reconnectInterval : Nat
  maxReconnectAttempts : Nat
  heartbeatInterval : Nat
  enableHeartbeat : Bool
  retryOnNetworkError : Bool
deriving Repr, DecidableEq

/-- Default option values of `useTaskStream`. -/
def defaultTSConfig : TSConfig :=
  { autoReconnect := true, reconnectInterval := 3000
    maxReconnectAttempts := 5, heartbeatInterval := 30000
    enableHeartbeat := true, retryOnNetworkError := true }

/-- The state of one `useTaskStream` hook instance.  `progressState` holds
the last `progress` payload stored by `setProgress`; `watchdogDeadline` is
the absolute time at which the armed per-heartbeat timeout fires;
`reconnectTimerArmed` records the delay of an armed reconnect timer. -/
structure TSState where
  taskId : String
  progressState : Option SSEPayload
  isConnected : Bool
  isConnecting : Bool
  error : Option String
  task : Option Task
  reconnectAttempts : Nat
  lastHeartbeat : Nat
  connectionTime : Nat
  reconnectTimerArmed : Option Nat
  watchdogDeadline : Option Nat
  esPresent : Bool
deriving Repr, DecidableEq

/-- The state of a freshly mounted hook watching `taskId`. -/
def initialTSState (taskId : String) : TSState :=
  { taskId := taskId, progressState := none, isConnected := false
    isConnecting := false, error := none, task := none
    reconnectAttempts := 0, lastHeartbeat := 0, connectionTime := 0
    reconnectTimerArmed := none, watchdogDeadline := none
    esPresent := false }

/-- `handleHeartbeat`: while heartbeats are enabled and the connection is
up, record the heartbeat time and re-arm the watchdog for twice the
heartbeat interval. -/
def handleHeartbeat (cfg : TSConfig) (now : Nat) (s : TSState) : TSState :=
  if cfg.enableHeartbeat && s.isConnected then
    { s with lastHeartbeat := now
             watchdogDeadline := some (now + cfg.heartbeatInterval * 2) }
  else s

/-- Callbacks raised by one `handleEvent` invocation.  `onStatusChange`
carries the (possibly undefined) status handed to the callback. -/
structure TSEffects where
  onProgress : Option SSEPayload
  onStatusChange : Option (Option TaskStatus)
  onStepChange : Option String
  onCompleted : Bool
  onErrorMsg : Option String
deriving Repr, DecidableEq

/-- No callbacks raised. -/
def noFx : TSEffects :=
  { onProgress := none, onStatusChange := none, onStepChange := none
    onCompleted := false, onErrorMsg := none }

/-- `handleEvent` of `useTaskStream`: parse, validate, and fold one SSE
event into the hook state.  Note that no branch consults the current
snapshot status: events are applied to terminal snapshots exactly as to
non-terminal ones. -/
def handleEvent (cfg : TSConfig) (now : Nat) (s : TSState)
    (raw : RawSSE) : TSState × TSEffects :=
  match raw with
  | .malformed =>
    ({ s with error := some "Failed to parse server event" },
      { noFx with onErrorMsg := some "Failed to parse server event" })
  | .evt e =>
    if !validSSE e then (s, noFx)
    else
      match e.type with
      | some "progress" =>
        match e.data.progressNum with
        | some p =>
          let s := { s with progressState := some e.data }
          let s := { s with task := s.task.map fun t =>
            if t.progress ≠ p then { t with progress := p } else t }
          (s, { noFx with onProgress := some e.data })
        | none => (s, noFx)
      | some "status" =>
        let newStatus := e.data.status
        let s := { s with task := s.task.map fun t =>
          let t1 := { t with status := newStatus }
          let t2 := if truthyStr e.data.errorMessage then
              { t1 with errorMessage := e.data.errorMessage }
            else t1
          if newStatus = some .completed then
            { t2 with endTime := some now, progress := 100 }
          else if newStatus = some .running && t.startTime = none then
            { t2 with startTime := some now }
          else t2 }
        (s, { noFx with onStatusChange := some newStatus })
      | some "step" =>
        if truthyStr e.data.step then
          ({ s with task := s.task.map fun t =>
              { t with currentStep := e.data.step } },
            { noFx with onStepChange := e.data.step })
        else (s, noFx)
      | some "heartbeat" => (handleHeartbeat cfg now s, noFx)
      | some "error" =>
        let msg := if truthyStr e.data.errorField then e.data.errorField.getD ""
          else if truthyStr e.data.message then e.data.message.getD ""
          else "Unknown error occurred"
        let s := { s with error := some msg }
        let s := { s with task := s.task.map fun t =>
          { t with status := some .failed, errorMessage := some msg
                   endTime := some now } }
        (s, { noFx with onErrorMsg := some msg })
      | some "completed" =>
        let s := { s with task := s.task.map fun t =>
          { t with status := some .completed, progress := 100
                   endTime := some (if truthyNat e.data.tsField then
                       e.data.tsField.getD 0 else now)
                   duration := e.data.duration
                   outputData := e.data.result } }
        (s, { noFx with onCompleted := true })
      | _ => (s, noFx)

/-- `disconnect` of `useTaskStream`: clear the reconnect timer and the
watchdog, close the stream, abort the in-flight fetch, and reset the
connection state. -/
def tsDisconnect (s : TSState) : TSState :=
  { s with reconnectTimerArmed := none, watchdogDeadline := none
           esPresent := false, isConnected := false, isConnecting := false
           lastHeartbeat := 0, connectionTime := 0 }

/-- `connect` of `useTaskStream` (synchronous part): a no-op without a
task id or while already connecting; otherwise mark connecting, clear the
error, run `disconnect()` (the source calls it inside `connect`, which
also overwrites the just-set connecting flag), and open a new stream.
The attempt counter is not touched here; it resets only in the `onopen`
handler. -/
def tsConnect (_cfg : TSConfig) (_now : Nat) (s : TSState) : TSState :=
  if s.taskId = "" || s.isConnecting then s
  else
    let s := { s with isConnecting := true, error := none }
    let s := tsDisconnect s
    { s with esPresent := true }

/-- `reconnect` of `useTaskStream`: disconnect, reset the attempt counter
and the error, then connect. -/
def tsReconnect (cfg : TSConfig) (now : Nat) (s : TSState) : TSState :=
  let s := tsDisconnect s
  let s := { s with reconnectAttempts := 0, error := none }
  tsConnect cfg now s

/-- The `onopen` handler: record the connection time, mark connected,
reset the attempt counter and the heartbeat clock.  Its final
`handleHeartbeat()` call reads the `isConnected` captured by the callback
closure, which is the pre-open value, so the watchdog is only armed here
when the closure already saw a connected state. -/
def tsOpen (cfg : TSConfig) (now : Nat) (elapsed : Nat) (s : TSState) :
    TSState :=
  let s1 := { s with connectionTime := elapsed, isConnected := true
                     isConnecting := false, reconnectAttempts := 0
                     lastHeartbeat := now }
  if cfg.enableHeartbeat && s.isConnected then
    { s1 with lastHeartbeat := now
              watchdogDeadline := some (now + cfg.heartbeatInterval * 2) }
  else s1

/-- The page-visibility handler: on hidden, disconnect a connected stream;
on visible, call `connect()` for a watched, non-connected stream (the
attempt counter is left as it is). -/
def tsHandleVisibility (cfg : TSConfig) (now : Nat) (hidden : Bool)
    (s : TSState) : TSState :=
  if hidden then
    if s.isConnected then tsDisconnect s else s
  else
    if s.taskId ≠ "" && !s.isConnected && !s.isConnecting then
      tsConnect cfg now s
    else s

/-- The network-online handler: `reconnect()` a watched, non-connected
stream, which resets the attempt counter. -/
def tsHandleOnline (cfg : TSConfig) (now : Nat) (s : TSState) : TSState :=
  if s.taskId ≠ "" && !s.isConnected && !s.isConnecting then
    tsReconnect cfg now s
  else s

/-- The network-offline handler: disconnect a connected stream. -/
def tsHandleOffline (s : TSState) : TSState :=
  if s.isConnected then tsDisconnect s else s

/-- The staleness test of the periodic heartbeat check: more than three
heartbeat intervals since the last recorded heartbeat. -/
def heartbeatStale (cfg : TSConfig) (now lastHb : Nat) : Bool :=
  now - lastHb > cfg.heartbeatInterval * 3

/-- One tick of the periodic heartbeat-check interval: while enabled and
connected, a stale connection gets its error set, is marked not connected,
and is re-established through `reconnect()` when attempts remain. -/
def heartbeatCheckTick (cfg : TSConfig) (now : Nat) (s : TSState) :
    TSState :=
  if !(cfg.enableHeartbeat && s.isConnected) then s
  else if heartbeatStale cfg now s.lastHeartbeat then
    let s := { s with error := some "Connection timeout - no heartbeat received"
                      isConnected := false }
    if cfg.autoReconnect && s.reconnectAttempts < cfg.maxReconnectAttempts then
      tsReconnect cfg now s
    else s
  else s

/-- The per-heartbeat watchdog firing (the `setTimeout` body armed by
`handleHeartbeat`): set the timeout error and mark not connected; when
attempts remain it only invokes the retry callback (returned as the
attempted count) and schedules nothing. -/
def watchdogFire (cfg : TSConfig) (s : TSState) : TSState × Option Nat :=
  let s := { s with error := some "Connection timeout - no heartbeat received"
                    isConnected := false, watchdogDeadline := none }
  if cfg.autoReconnect && s.reconnectAttempts < cfg.maxReconnectAttempts then
    (s, some (s.reconnectAttempts + 1))
  else (s, none)

/-- The reconnect delay computed in the `onerror` handler of
`useTaskStream`: `min(reconnectInterval * 2 ^ currentAttempts, 30000)`,
where `currentAttempts` is the count of retries already made (so the
first retry, attempt 1, uses exponent 0). -/
def sseReconnectDelay (reconnectInterval : Nat) (currentAttempts : Nat) :
    Nat :=
  min (reconnectInterval * 2 ^ currentAttempts) 30000

end TS

namespace Batch

/-- The `overallStats` record of `useBatchTaskStream`. -/
structure OverallStats where
  totalTasks : Nat
  completedTasks : Nat
  failedTasks : Nat
  runningTasks : Nat
  pendingTasks : Nat
deriving Repr, DecidableEq

/-- Whether a snapshot entry counts towards one of the four status
counters. -/
def countedStatus (t : Option TS.Task) : Bool :=
  match t with
  | some u =>
    u.status = some .completed || u.status = some .failed
      || u.status = some .running || u.status = some .pending
  | none => false

/-- The statistics effect of `useBatchTaskStream`: `totalTasks` is the
number of watched task ids, while the four status counters filter the
current snapshot values. -/
def computeOverallStats (taskIds : List String)
    (tasks : List (Option TS.Task)) : OverallStats :=
  { totalTasks := taskIds.length
    completedTasks := (tasks.filter fun t =>
      match t with | some u => u.status = some .completed | none => false).length
    failedTasks := (tasks.filter fun t =>
      match t with | some u => u.status = some .failed | none => false).length
    runningTasks := (tasks.filter fun t =>
      match t with | some u => u.status = some .running | none => false).length
    pendingTasks := (tasks.filter fun t =>
      match t with | some u => u.status = some .pending | none => false).length }

end Batch


section HelperLemmas

/-- `updateStatistics` only touches the `stats` field. -/
lemma WS.updateStatistics_eta (cfg : WS.WSConfig) (s : WS.WSState)
    (f : WS.ConnectionStatistics → WS.ConnectionStatistics) :
    WS.updateStatistics cfg s f =
      { s with stats := if cfg.enableStatistics then f s.stats else s.stats } := by
  unfold WS.updateStatistics
  split <;> simp

/-- `updateQuality` leaves the attempt counter unchanged. -/
lemma WS.updateQuality_reconnectAttempts (s : WS.WSState) (l : Int) :
    (WS.updateQuality s l).reconnectAttempts = s.reconnectAttempts := by
  unfold WS.updateQuality
  rfl

end HelperLemmas

/-- Sample pending request used to exhibit the behaviour of `disconnect`. -/
def pendingSampleMsg : WS.WSMessage :=
  { type := some "request", timestamp := some 1, messageId := some "m1"
    requestId := some "r1", errorMsg := none, data := none }

/-- A connected state with one outstanding pending request whose timeout
timer is armed. -/
def statePending : WS.WSState :=
  { WS.initialState with
      wsPresent := true, wsOpen := true, status := .connected
      isConnected := true
      pendingMessages := [("r1", { message := pendingSampleMsg
                                   timerArmed := true })] }

/-- Claim C2 (counterexample): after `disconnect()` the pending-request map
is not empty and its per-request timeout timer is still armed, contrary to
the claim that every outstanding request is rejected and no timer remains. -/
theorem c2_counterexample :
    (WS.disconnect statePending).pendingMessages ≠ [] ∧
    ((WS.disconnect statePending).pendingMessages.any
      fun p => p.2.timerArmed) = true := by
  constructor
  · decide
  · decide

/-- Claim C2 (amended): `disconnect()` synchronously cancels the reconnect
timer and all heartbeat timers, closes and drops the socket, and resets the
connection state, but it leaves the pending-request map (and hence every
armed per-request timeout) untouched, and the connection-establishment
timeout - whose handle the source never stores - is likewise untouched. -/
theorem c2_disconnect_scope (s : WS.WSState) :
    (WS.disconnect s).reconnectTimeout = none ∧
    (WS.disconnect s).heartbeatIntervalArmed = false ∧
    (WS.disconnect s).heartbeatTimeoutArmed = false ∧
    (WS.disconnect s).pingTimeoutArmed = false ∧
    (WS.disconnect s).wsPresent = false ∧
    (WS.disconnect s).status = .disconnected ∧
    (WS.disconnect s).pendingMessages = s.pendingMessages ∧
    (WS.disconnect s).connTimeoutArmed = s.connTimeoutArmed := by
  unfold WS.disconnect WS.stopHeartbeat
  repeat constructor

/-- Claim C3 (counterexample): at the first retry the code computes
`baseDelay` (exponent `attempt - 1 = 0`), while the specification formula
`min(baseDelay * factor ^ attempt, maxDelay)` gives `baseDelay * factor`;
with the default configuration these are 3000 and 4500. -/
theorem c3_counterexample :
    WS.reconnectDelay WS.defaultConfig 1 = 3000 ∧
    WS.specDelay WS.defaultConfig 1 = 4500 ∧
    WS.reconnectDelay WS.defaultConfig 1 ≠ WS.specDelay WS.defaultConfig 1 := by
  refine ⟨?_, ?_, ?_⟩ <;> norm_num [WS.reconnectDelay, WS.specDelay,
    WS.defaultConfig, min_def]

/-- Claim C3 (amended): the reconnect delay is the deterministic (jitter
free) function `min(baseDelay * factor ^ (attempt - 1), maxDelay)` in the
WebSocket hook and `min(baseDelay * 2 ^ (attempt - 1), 30000)` in the SSE
hook; for every attempt it is bounded by the maximum and the sequence is
non-decreasing in the attempt number. -/
theorem c3_backoff_bounded_monotone (cfg : WS.WSConfig)
    (h0 : 0 ≤ cfg.reconnectInterval) (h1 : 1 ≤ cfg.reconnectBackoffFactor)
    (a b : Nat) (hab : a ≤ b) :
    WS.reconnectDelay cfg a ≤ cfg.maxReconnectInterval ∧
    WS.reconnectDelay cfg a ≤ WS.reconnectDelay cfg b ∧
    TS.sseReconnectDelay 3000 a ≤ 30000 ∧
    TS.sseReconnectDelay 3000 a ≤ TS.sseReconnectDelay 3000 b := by
  refine ⟨min_le_right _ _, ?_, min_le_right _ _, ?_⟩
  · unfold WS.reconnectDelay
    refine min_le_min ?_ le_rfl
    exact mul_le_mul_of_nonneg_left
      (pow_le_pow_right₀ h1 (Nat.sub_le_sub_right hab 1)) h0
  · unfold TS.sseReconnectDelay
    refine min_le_min ?_ le_rfl
    exact Nat.mul_le_mul_left 3000 (Nat.pow_le_pow_right (by norm_num) hab)

/-- Claim C3 (witness): the amended statement applied to the default
configuration at attempts 1 and 2. -/
theorem c3_backoff_bounded_monotone_witness :
    (0 ≤ WS.defaultConfig.reconnectInterval ∧
      1 ≤ WS.defaultConfig.reconnectBackoffFactor ∧ 1 ≤ 2) ∧
    (WS.reconnectDelay WS.defaultConfig 1 ≤
        WS.defaultConfig.maxReconnectInterval ∧
      WS.reconnectDelay WS.defaultConfig 1 ≤ WS.reconnectDelay WS.defaultConfig 2 ∧
      TS.sseReconnectDelay 3000 1 ≤ 30000 ∧
      TS.sseReconnectDelay 3000 1 ≤ TS.sseReconnectDelay 3000 2) :=
  ⟨⟨by norm_num [WS.defaultConfig], by norm_num [WS.defaultConfig], by norm_num⟩,
    c3_backoff_bounded_monotone WS.defaultConfig
      (by norm_num [WS.defaultConfig]) (by norm_num [WS.defaultConfig])
      1 2 (by norm_num)⟩

/-- A disconnected state whose outbound queue already holds two messages. -/
def stateQueuedC5 : WS.WSState :=
  { WS.initialState with
      messageQueue := [{ type := some "a", timestamp := some 1
                         messageId := some "a1", requestId := none
                         errorMsg := none, data := none },
                       { type := some "b", timestamp := some 2
                         messageId := some "b1", requestId := none
                         errorMsg := none, data := none }] }

/-- The third message sent while disconnected. -/
def msgC5 : WS.WSMessage :=
  { type := some "c", timestamp := some 3, messageId := some "c1"
    requestId := none, errorMsg := none, data := none }

/-- Claim C5 (counterexample): a `send` while disconnected both queues the
message and rejects the returned promise - the caller observes a failure
even though the queue (which has no capacity bound in the source) is far
from any capacity. -/
theorem c5_counterexample :
    ((WS.send WS.defaultConfig 0 stateQueuedC5 msgC5 3).2).isRejection = true ∧
    (WS.send WS.defaultConfig 0 stateQueuedC5 msgC5 3).1.messageQueue =
      stateQueuedC5.messageQueue ++ [msgC5] := by
  constructor
  · decide
  · decide

/-- Claim C5 (amended): `send(message)` while the socket is not open (and
auto-reconnect is on) appends the message to the unbounded outbound queue
and rejects the promise with a queued-message error; there is no capacity
bound, hence no capacity error, and no queued message is dropped by
`send`. -/
theorem c5_send_queues_and_rejects (cfg : WS.WSConfig) (now : Nat)
    (s : WS.WSState) (m : WS.WSMessage) (size : Nat)
    (hopen : (s.wsPresent && s.wsOpen) = false)
    (hauto : cfg.autoReconnect = true) :
    WS.send cfg now s m size =
      ({ s with messageQueue := s.messageQueue ++ [m] },
        .rejectedQueued) := by
  unfold WS.send
  rw [hopen]
  simp [hauto]

/-- Claim C5 (witness): the amended statement applied to the freshly
mounted (disconnected) state. -/
theorem c5_send_queues_and_rejects_witness :
    ((WS.initialState.wsPresent && WS.initialState.wsOpen) = false ∧
      WS.defaultConfig.autoReconnect = true) ∧
    WS.send WS.defaultConfig 0 WS.initialState msgC5 3 =
      ({ WS.initialState with
          messageQueue := WS.initialState.messageQueue ++ [msgC5] },
        .rejectedQueued) :=
  ⟨⟨by decide, by decide⟩,
    c5_send_queues_and_rejects WS.defaultConfig 0 WS.initialState msgC5 3
      (by decide) (by decide)⟩

/-- A frame whose envelope lacks the required `messageId` field. -/
def msgMissingId : WS.WSMessage :=
  { type := some "status", timestamp := some 1, messageId := none
    requestId := none, errorMsg := none, data := none }

/-- Claim C7 (counterexample): a frame lacking `messageId` is dropped
without incrementing any protocol-error counter - `messageErrors` stays at
0 and no callback fires - contrary to the claim that the counter is
incremented for every invalid frame. -/
theorem c7_counterexample :
    (WS.handleMessage WS.defaultConfig 5 WS.initialState
      (.parsed msgMissingId 10)).1.stats.messageErrors =
      WS.initialState.stats.messageErrors ∧
    (WS.handleMessage WS.defaultConfig 5 WS.initialState
      (.parsed msgMissingId 10)).2 = WS.noEffects := by
  constructor
  · decide
  · decide

/-- Claim C7 (amended): a frame that fails to deserialize is dropped with
the `messageErrors` counter incremented; a frame lacking one of the
required `type`/`timestamp`/`messageId` fields is dropped without touching
any counter.  In both cases every other part of the state - the status,
connection flags, socket, queue, pending requests - is untouched, so the
connection stays alive and subsequent frames are processed normally. -/
theorem c7_bad_frames_dropped (cfg : WS.WSConfig) (now : Nat)
    (s : WS.WSState) (size : Nat) (m : WS.WSMessage)
    (hstats : cfg.enableStatistics = true)
    (hm : WS.isWebSocketMessage m = false) :
    WS.handleMessage cfg now s (.malformed size) =
      ({ s with lastMessageTime := some now
                stats := { s.stats with
                  messageErrors := s.stats.messageErrors + 1 } },
        WS.noEffects) ∧
    WS.handleMessage cfg now s (.parsed m size) =
      ({ s with lastMessageTime := some now }, WS.noEffects) := by
  constructor
  · unfold WS.handleMessage WS.updateStatistics
    simp [hstats]
  · unfold WS.handleMessage
    simp [hm]

/-- Claim C7 (witness): the amended statement applied to a parse failure
and to the `msgMissingId` frame, from the initial state. -/
theorem c7_bad_frames_dropped_witness :
    (WS.defaultConfig.enableStatistics = true ∧
      WS.isWebSocketMessage msgMissingId = false) ∧
    (WS.handleMessage WS.defaultConfig 5 WS.initialState (.malformed 10) =
      ({ WS.initialState with
          lastMessageTime := some 5
          stats := { WS.initialState.stats with
            messageErrors := WS.initialState.stats.messageErrors + 1 } },
        WS.noEffects) ∧
      WS.handleMessage WS.defaultConfig 5 WS.initialState
          (.parsed msgMissingId 10) =
        ({ WS.initialState with lastMessageTime := some 5 },
          WS.noEffects)) :=
  ⟨⟨by decide, by decide⟩,
    c7_bad_frames_dropped WS.defaultConfig 5 WS.initialState 10 msgMissingId
      (by decide) (by decide)⟩

/-- Claim C10: a valid `pong` frame is consumed internally - the latency
sample `now - lastHeartbeatTime` is pushed into the quality measurements
and handed to the heartbeat callback - and the caller's message callback is
not invoked. -/
theorem c10_pong_consumed (cfg : WS.WSConfig) (now : Nat) (s : WS.WSState)
    (m : WS.WSMessage) (size : Nat)
    (hv : WS.isWebSocketMessage m = true)
    (hp : m.type = some "pong") :
    (WS.handleMessage cfg now s (.parsed m size)).2.onMessage = none ∧
    (WS.handleMessage cfg now s (.parsed m size)).2.onHeartbeat =
      some ((now : Int) - (s.lastHeartbeatTime : Int)) ∧
    (WS.handleMessage cfg now s (.parsed m size)).1.latencyMeasurements =
      (let lm1 := s.latencyMeasurements ++
        [(now : Int) - (s.lastHeartbeatTime : Int)]
       if lm1.length > 10 then lm1.tail else lm1) := by
  unfold WS.handleMessage
  simp only [hv, hp, Bool.not_true, Bool.false_eq_true, if_false, if_true,
    reduceIte]
  unfold WS.updateQuality WS.updateStatistics
  split <;> simp [WS.noEffects]

/-- Claim C10 (witness): a concrete valid pong frame at time 250 against a
state whose last heartbeat was sent at time 100. -/
theorem c10_pong_consumed_witness :
    (WS.isWebSocketMessage
        { type := some "pong", timestamp := some 1, messageId := some "p1"
          requestId := none, errorMsg := none, data := none } = true ∧
      WS.WSMessage.type
        { type := some "pong", timestamp := some 1, messageId := some "p1"
          requestId := none, errorMsg := none, data := none } = some "pong") ∧
    ((WS.handleMessage WS.defaultConfig 250
        { WS.initialState with lastHeartbeatTime := 100 }
        (.parsed { type := some "pong", timestamp := some 1
                   messageId := some "p1", requestId := none
                   errorMsg := none, data := none } 4)).2.onMessage = none ∧
      (WS.handleMessage WS.defaultConfig 250
        { WS.initialState with lastHeartbeatTime := 100 }
        (.parsed { type := some "pong", timestamp := some 1
                   messageId := some "p1", requestId := none
                   errorMsg := none, data := none } 4)).2.onHeartbeat =
        some ((250 : Int) -
          (WS.WSState.lastHeartbeatTime
            { WS.initialState with lastHeartbeatTime := 100 } : Int)) ∧
      (WS.handleMessage WS.defaultConfig 250
        { WS.initialState with lastHeartbeatTime := 100 }
        (.parsed { type := some "pong", timestamp := some 1
                   messageId := some "p1", requestId := none
                   errorMsg := none, data := none } 4)).1.latencyMeasurements =
        (let lm1 := (WS.WSState.latencyMeasurements
            { WS.initialState with lastHeartbeatTime := 100 }) ++
          [(250 : Int) -
            (WS.WSState.lastHeartbeatTime
              { WS.initialState with lastHeartbeatTime := 100 } : Int)]
         if lm1.length > 10 then lm1.tail else lm1)) :=
  ⟨⟨by decide, by decide⟩,
    c10_pong_consumed WS.defaultConfig 250
      { WS.initialState with lastHeartbeatTime := 100 }
      { type := some "pong", timestamp := some 1, messageId := some "p1"
        requestId := none, errorMsg := none, data := none } 4
      (by decide) (by decide)⟩

/-- `handleMessage` never changes the reconnect attempt counter. -/
lemma WS.handleMessage_reconnectAttempts (cfg : WS.WSConfig) (now : Nat)
    (s : WS.WSState) (f : WS.RawFrame) :
    ((WS.handleMessage cfg now s f).1).reconnectAttempts =
      s.reconnectAttempts := by
  unfold WS.handleMessage WS.updateStatistics WS.updateQuality
  rcases f with _ | ⟨m, size⟩ <;> dsimp only <;> repeat' split
  all_goals rfl

/-- `send` never changes the reconnect attempt counter. -/
lemma WS.send_reconnectAttempts (cfg : WS.WSConfig) (now : Nat)
    (s : WS.WSState) (m : WS.WSMessage) (size : Nat) :
    ((WS.send cfg now s m size).1).reconnectAttempts =
      s.reconnectAttempts := by
  unfold WS.send WS.updateStatistics WS.setPending
  repeat' split <;> try rfl

/-- `handleOpen` resets the attempt counter. -/
lemma WS.handleOpen_reconnectAttempts (cfg : WS.WSConfig) (now : Nat)
    (s : WS.WSState) : (WS.handleOpen cfg now s).reconnectAttempts = 0 := by
  unfold WS.handleOpen WS.updateStatistics WS.startHeartbeat
  repeat' split
  all_goals rfl

/-- `handleError` does not touch the attempt counter. -/
lemma WS.handleError_reconnectAttempts (cfg : WS.WSConfig) (s : WS.WSState) :
    (WS.handleError cfg s).reconnectAttempts = s.reconnectAttempts := by
  unfold WS.handleError WS.updateStatistics
  split <;> rfl

/-- `connect` does not touch the attempt counter. -/
lemma WS.connect_reconnectAttempts (cfg : WS.WSConfig) (now : Nat)
    (s : WS.WSState) :
    (WS.connect cfg now s).reconnectAttempts = s.reconnectAttempts := by
  unfold WS.connect
  repeat' split
  all_goals rfl

/-- `handleClose` keeps the attempt counter within the cap: it increments
only under the guard `reconnectAttempts < maxReconnectAttempts`. -/
lemma WS.handleClose_attempts_le (cfg : WS.WSConfig) (now : Nat)
    (wasClean : Bool) (s : WS.WSState)
    (h : s.reconnectAttempts ≤ cfg.maxReconnectAttempts) :
    (WS.handleClose cfg now wasClean s).reconnectAttempts ≤
      cfg.maxReconnectAttempts := by
  unfold WS.handleClose WS.handleReconnect WS.updateStatistics
    WS.stopHeartbeat
  dsimp only
  split_ifs <;> try simp_all
  all_goals omega

/-- Every step keeps the attempt counter at or below the configured
maximum: `handleClose` only increments it under the guard
`reconnectAttempts < maxReconnectAttempts`, and `handleOpen` resets it. -/
lemma WS.step_attempts_le (cfg : WS.WSConfig) (s : WS.WSState) (e : WS.WSEv)
    (h : s.reconnectAttempts ≤ cfg.maxReconnectAttempts) :
    (WS.step cfg s e).reconnectAttempts ≤ cfg.maxReconnectAttempts := by
  rcases e with now | ⟨now, wasClean⟩ | _ | now | ⟨now, f⟩ | _ | ⟨now, m, size⟩ | now <;>
    simp only [WS.step]
  · rw [WS.handleOpen_reconnectAttempts]
    exact Nat.zero_le _
  · exact WS.handleClose_attempts_le cfg now wasClean s h
  · rw [WS.handleError_reconnectAttempts]
    exact h
  · split
    · rw [WS.connect_reconnectAttempts]
      exact h
    · exact h
  · rw [WS.handleMessage_reconnectAttempts]
    exact h
  · exact h
  · rw [WS.send_reconnectAttempts]
    exact h
  · rw [WS.connect_reconnectAttempts]
    exact h

/-- The attempt cap holds along any run that starts within the cap. -/
lemma WS.run_attempts_le (cfg : WS.WSConfig) (evs : List WS.WSEv)
    (s : WS.WSState) (h : s.reconnectAttempts ≤ cfg.maxReconnectAttempts) :
    (WS.run cfg s evs).reconnectAttempts ≤ cfg.maxReconnectAttempts := by
  induction evs generalizing s with
  | nil => exact h
  | cons e tl ih => exact ih _ (WS.step_attempts_le cfg s e h)

/-- One failure cycle observed by the hook: the transport errors, the
socket closes non-cleanly, and the armed reconnect timer fires. -/
def failCycle : List WS.WSEv := [.errored, .closed 0 false, .timerFire 0]

/-- An explicit connect followed by six consecutive transport failures. -/
def sixFailures : List WS.WSEv :=
  [.userConnect 0] ++ failCycle ++ failCycle ++ failCycle ++ failCycle
    ++ failCycle ++ [.errored, .closed 0 false]

/-- Claim C4 (counterexample): after the reconnect attempts are exhausted
the hook ends in the `disconnected` status, not in a terminal `error`
status - the close handler overwrites the transient `error` status set by
the error handler. -/
theorem c4_counterexample :
    (WS.run WS.defaultConfig WS.initialState sixFailures).status =
      .disconnected ∧
    (WS.run WS.defaultConfig WS.initialState sixFailures).status ≠
      .error := by
  constructor
  · decide
  · decide

/-- Claim C4 (amended): with `maxReconnectAttempts = 5`, a run of
consecutive non-clean transport failures schedules exactly 5 reconnect
attempts and never a 6th - the counter never exceeds 5 on any event
sequence, after the 6th failure no reconnect timer is armed and a further
failure still arms none - and the hook surfaces a caller-visible
connection error while ending in the `disconnected` status; only an
explicit `connect()` call starts connecting again. -/
theorem c4_five_attempts_then_stop :
    (∀ evs : List WS.WSEv,
      (WS.run WS.defaultConfig WS.initialState evs).reconnectAttempts ≤ 5) ∧
    (WS.run WS.defaultConfig WS.initialState sixFailures).reconnectAttempts
      = 5 ∧
    (WS.run WS.defaultConfig WS.initialState sixFailures).reconnectTimeout
      = none ∧
    (WS.run WS.defaultConfig WS.initialState sixFailures).error =
      some { code := "CONNECTION_FAILED"
             message := "WebSocket connection failed" } ∧
    (WS.step WS.defaultConfig
      (WS.run WS.defaultConfig WS.initialState sixFailures)
      (.closed 0 false)).reconnectTimeout = none ∧
    (WS.step WS.defaultConfig
      (WS.run WS.defaultConfig WS.initialState sixFailures)
      (.userConnect 0)).status = .connecting := by
  refine ⟨fun evs => WS.run_attempts_le WS.defaultConfig evs WS.initialState
    (by decide), ?_, ?_, ?_, ?_, ?_⟩
  · decide
  · decide
  · decide
  · decide
  · decide

/-- Equation: a valid `progress` event with a numeric progress value
stores the payload and maps the snapshot progress. -/
lemma TS.handleEvent_progress (cfg : TS.TSConfig) (now ts : Nat)
    (s : TS.TSState) (tid : String) (d : TS.SSEPayload) (p : Int)
    (hts : ts ≠ 0) (hp : d.progressNum = some p) :
    TS.handleEvent cfg now s
      (.evt { type := some "progress", timestamp := some ts
              taskId := tid, data := d }) =
      ({ s with progressState := some d
                task := s.task.map fun t =>
                  if t.progress ≠ p then { t with progress := p } else t },
        { TS.noFx with onProgress := some d }) := by
  unfold TS.handleEvent TS.validSSE TS.truthyStr TS.truthyNat
  simp [hts, hp]

/-- Equation: a valid `heartbeat` event only runs `handleHeartbeat`. -/
lemma TS.handleEvent_heartbeat (cfg : TS.TSConfig) (now ts : Nat)
    (s : TS.TSState) (tid : String) (d : TS.SSEPayload) (hts : ts ≠ 0) :
    TS.handleEvent cfg now s
      (.evt { type := some "heartbeat", timestamp := some ts
              taskId := tid, data := d }) =
      (TS.handleHeartbeat cfg now s, TS.noFx) := by
  unfold TS.handleEvent TS.validSSE TS.truthyStr TS.truthyNat
  simp [hts]

/-- Equation: a valid `error` event with a truthy `error` field sets the
hook error and forces the snapshot to `failed`. -/
lemma TS.handleEvent_error_field (cfg : TS.TSConfig) (now ts : Nat)
    (s : TS.TSState) (tid : String) (d : TS.SSEPayload)
    (hts : ts ≠ 0) (hef : TS.truthyStr d.errorField = true) :
    TS.handleEvent cfg now s
      (.evt { type := some "error", timestamp := some ts
              taskId := tid, data := d }) =
      ({ s with error := some (d.errorField.getD "")
                task := s.task.map fun t =>
                  { t with status := some .failed
                           errorMessage := some (d.errorField.getD "")
                           endTime := some now } },
        { TS.noFx with onErrorMsg := some (d.errorField.getD "") }) := by
  unfold TS.handleEvent TS.validSSE TS.truthyStr TS.truthyNat
  simp [hts]
  unfold TS.truthyStr at hef
  rcases hd : d.errorField with _ | v
  · rw [hd] at hef
    simp at hef
  · rw [hd] at hef
    simp at hef
    simp [hd, hef]

/-- A snapshot already in the terminal `completed` state. -/
def completedTaskC1 : TS.Task :=
  { status := some .completed, progress := 100, currentStep := some "done"
    startTime := some 1, endTime := some 2, errorMessage := none
    duration := some 1, outputData := none }

/-- A connected task-stream state holding the completed snapshot. -/
def stateC1 : TS.TSState :=
  { TS.initialTSState "t1" with
      isConnected := true, esPresent := true, task := some completedTaskC1 }

/-- A valid `progress` event carrying progress 40. -/
def progressEvtC1 : TS.RawSSE :=
  .evt { type := some "progress", timestamp := some 5, taskId := "t1"
         data := { TS.emptyPayload with progressNum := some 40 } }

/-- Claim C1 (counterexample): applying a `progress` event to a
`completed` snapshot overwrites its progress (100 becomes 40), so the
snapshot is not left unchanged. -/
theorem c1_counterexample :
    (TS.handleEvent TS.defaultTSConfig 10 stateC1 progressEvtC1).1.task =
      some { completedTaskC1 with progress := 40 } ∧
    (TS.handleEvent TS.defaultTSConfig 10 stateC1 progressEvtC1).1.task ≠
      stateC1.task := by
  constructor
  · decide
  · decide

/-- Claim C1 (amended): the reconciler never consults the snapshot status,
so `progress`, `status`, `step`, `error` and `completed` events mutate a
terminal snapshot exactly as a non-terminal one: on any snapshot whose
status is terminal, a valid `progress` event sets `progress` to the event
value, a valid `error` event overwrites `status`, `errorMessage` and
`endTime`, and only `heartbeat` (and invalid or unknown-type) events leave
the snapshot unchanged. -/
theorem c1_terminal_snapshots_mutable (cfg : TS.TSConfig) (now ts : Nat)
    (s : TS.TSState) (t : TS.Task) (p : Int) (d : TS.SSEPayload)
    (hts : ts ≠ 0)
    (htask : s.task = some t)
    (hterm : TS.isTerminal t.status = true)
    (hp : d.progressNum = some p) :
    (TS.handleEvent cfg now s
      (.evt { type := some "progress", timestamp := some ts
              taskId := s.taskId, data := d })).1.task =
      some { t with progress := p } ∧
    (TS.handleEvent cfg now s
      (.evt { type := some "error", timestamp := some ts
              taskId := s.taskId
              data := { TS.emptyPayload with
                        errorField := some "boom" } })).1.task =
      some { t with status := some .failed, errorMessage := some "boom"
                    endTime := some now } ∧
    (TS.handleEvent cfg now s
      (.evt { type := some "heartbeat", timestamp := some ts
              taskId := s.taskId, data := TS.emptyPayload })).1.task =
      s.task := by
  refine ⟨?_, ?_, ?_⟩
  · rw [TS.handleEvent_progress cfg now ts s s.taskId d p hts hp]
    obtain ⟨st, pr, cs, stt, et, em, du, od⟩ := t
    simp [htask]
  · rw [TS.handleEvent_error_field cfg now ts s s.taskId
      { TS.emptyPayload with errorField := some "boom" } hts (by decide)]
    simp [htask]
  · rw [TS.handleEvent_heartbeat cfg now ts s s.taskId TS.emptyPayload hts]
    unfold TS.handleHeartbeat
    split <;> rfl

/-- The progress-40 payload of `progressEvtC1`. -/
def SSEPayloadC1 : TS.SSEPayload :=
  { TS.emptyPayload with progressNum := some 40 }

/-- Claim C1 (witness): the amended statement applied to the completed
snapshot `completedTaskC1` and a progress-40 event. -/
theorem c1_terminal_snapshots_mutable_witness :
    ((5 : Nat) ≠ 0 ∧ stateC1.task = some completedTaskC1 ∧
      TS.isTerminal completedTaskC1.status = true ∧
      (SSEPayloadC1).progressNum = some 40) ∧
    ((TS.handleEvent TS.defaultTSConfig 10 stateC1
        (.evt { type := some "progress", timestamp := some 5
                taskId := stateC1.taskId, data := SSEPayloadC1 })).1.task =
      some { completedTaskC1 with progress := 40 } ∧
      (TS.handleEvent TS.defaultTSConfig 10 stateC1
        (.evt { type := some "error", timestamp := some 5
                taskId := stateC1.taskId
                data := { TS.emptyPayload with
                          errorField := some "boom" } })).1.task =
        some { completedTaskC1 with
                status := some .failed, errorMessage := some "boom"
                endTime := some 10 } ∧
      (TS.handleEvent TS.defaultTSConfig 10 stateC1
        (.evt { type := some "heartbeat", timestamp := some 5
                taskId := stateC1.taskId
                data := TS.emptyPayload })).1.task = stateC1.task) :=
  ⟨⟨by decide, by decide, by decide, by decide⟩,
    c1_terminal_snapshots_mutable TS.defaultTSConfig 10 5 stateC1
      completedTaskC1 40 SSEPayloadC1 (by decide) (by decide) (by decide)
      (by decide)⟩

/-- A connected stream whose last heartbeat was at time 0, watchdog armed
for time 20000. -/
def stateC6 : TS.TSState :=
  { TS.initialTSState "t6" with
      isConnected := true, esPresent := true, lastHeartbeat := 0
      watchdogDeadline := some 20000 }

/-- A valid `progress` event arriving at time 15000. -/
def progressEvtC6 : TS.RawSSE :=
  .evt { type := some "progress", timestamp := some 15000, taskId := "t6"
         data := { TS.emptyPayload with progressNum := some 10 } }

/-- Claim C6 (counterexample): a valid non-heartbeat inbound frame does
not reset the watchdog - after a `progress` frame at time 15000 the last
heartbeat time is still 0 and the watchdog deadline still 20000, contrary
to the claim that every inbound frame resets the deadline. -/
theorem c6_counterexample :
    (TS.handleEvent TS.defaultTSConfig 15000 stateC6 progressEvtC6).1.lastHeartbeat
      = 0 ∧
    (TS.handleEvent TS.defaultTSConfig 15000 stateC6 progressEvtC6).1.watchdogDeadline
      = some 20000 ∧
    (0 : Nat) ≠ 15000 := by
  refine ⟨?_, ?_, ?_⟩ <;> decide

/-- Claim C6 (amended): the watchdog deadline is reset only by `heartbeat`
frames (re-armed to `now + 2 * heartbeatInterval`); valid data frames
leave the heartbeat clock and the deadline untouched.  When the watchdog
fires it surfaces a timeout error and marks the stream not connected but
schedules no reconnect (it only invokes the retry callback).  With a 10s
interval, a heartbeat at time 0 arms the watchdog for 20s - hence a
connection silent for 21s has been declared stale by the watchdog - while
the separate periodic check (threshold 3x the interval) is not yet
triggered at 21s. -/
theorem c6_watchdog_heartbeat_only (cfg : TS.TSConfig) (now ts : Nat)
    (s : TS.TSState) (d : TS.SSEPayload) (p : Int)
    (hts : ts ≠ 0)
    (hhb : cfg.enableHeartbeat = true)
    (hconn : s.isConnected = true)
    (hp : d.progressNum = some p) :
    ((TS.handleEvent cfg now s
        (.evt { type := some "heartbeat", timestamp := some ts
                taskId := s.taskId, data := d })).1.lastHeartbeat = now ∧
      (TS.handleEvent cfg now s
        (.evt { type := some "heartbeat", timestamp := some ts
                taskId := s.taskId, data := d })).1.watchdogDeadline =
        some (now + cfg.heartbeatInterval * 2)) ∧
    ((TS.handleEvent cfg now s
        (.evt { type := some "progress", timestamp := some ts
                taskId := s.taskId, data := d })).1.lastHeartbeat =
        s.lastHeartbeat ∧
      (TS.handleEvent cfg now s
        (.evt { type := some "progress", timestamp := some ts
                taskId := s.taskId, data := d })).1.watchdogDeadline =
        s.watchdogDeadline) ∧
    ((TS.watchdogFire cfg s).1.isConnected = false ∧
      (TS.watchdogFire cfg s).1.error =
        some "Connection timeout - no heartbeat received" ∧
      (TS.watchdogFire cfg s).1.reconnectTimerArmed =
        s.reconnectTimerArmed) ∧
    (TS.handleHeartbeat { cfg with heartbeatInterval := 10000 } 0
      { s with isConnected := true }).watchdogDeadline = some 20000 ∧
    TS.heartbeatStale { cfg with heartbeatInterval := 10000 } 21000 0 =
      false := by
  refine ⟨⟨?_, ?_⟩, ⟨?_, ?_⟩, ⟨?_, ?_, ?_⟩, ?_, ?_⟩
  · rw [TS.handleEvent_heartbeat cfg now ts s s.taskId d hts]
    unfold TS.handleHeartbeat
    simp [hhb, hconn]
  · rw [TS.handleEvent_heartbeat cfg now ts s s.taskId d hts]
    unfold TS.handleHeartbeat
    simp [hhb, hconn]
  · rw [TS.handleEvent_progress cfg now ts s s.taskId d p hts hp]
  · rw [TS.handleEvent_progress cfg now ts s s.taskId d p hts hp]
  · unfold TS.watchdogFire
    dsimp only
    split <;> rfl
  · unfold TS.watchdogFire
    dsimp only
    split <;> rfl
  · unfold TS.watchdogFire
    dsimp only
    split <;> rfl
  · unfold TS.handleHeartbeat
    simp [hhb]
  · unfold TS.heartbeatStale
    dsimp only
    decide

/-- Claim C6 (witness): the amended statement applied to `stateC6` and a
progress event at time 15000. -/
theorem c6_watchdog_heartbeat_only_witness :
    ((15000 : Nat) ≠ 0 ∧ TS.defaultTSConfig.enableHeartbeat = true ∧
      stateC6.isConnected = true ∧
      TS.SSEPayload.progressNum
        { TS.emptyPayload with progressNum := some 10 } = some 10) ∧
    (((TS.handleEvent TS.defaultTSConfig 15000 stateC6
        (.evt { type := some "heartbeat", timestamp := some 15000
                taskId := stateC6.taskId
                data := { TS.emptyPayload with progressNum := some 10 }
                })).1.lastHeartbeat = 15000 ∧
      (TS.handleEvent TS.defaultTSConfig 15000 stateC6
        (.evt { type := some "heartbeat", timestamp := some 15000
                taskId := stateC6.taskId
                data := { TS.emptyPayload with progressNum := some 10 }
                })).1.watchdogDeadline =
        some (15000 + TS.defaultTSConfig.heartbeatInterval * 2)) ∧
      ((TS.handleEvent TS.defaultTSConfig 15000 stateC6
        (.evt { type := some "progress", timestamp := some 15000
                taskId := stateC6.taskId
                data := { TS.emptyPayload with progressNum := some 10 }
                })).1.lastHeartbeat = stateC6.lastHeartbeat ∧
      (TS.handleEvent TS.defaultTSConfig 15000 stateC6
        (.evt { type := some "progress", timestamp := some 15000
                taskId := stateC6.taskId
                data := { TS.emptyPayload with progressNum := some 10 }
                })).1.watchdogDeadline = stateC6.watchdogDeadline) ∧
      ((TS.watchdogFire TS.defaultTSConfig stateC6).1.isConnected = false ∧
        (TS.watchdogFire TS.defaultTSConfig stateC6).1.error =
          some "Connection timeout - no heartbeat received" ∧
        (TS.watchdogFire TS.defaultTSConfig stateC6).1.reconnectTimerArmed =
          stateC6.reconnectTimerArmed) ∧
      (TS.handleHeartbeat
        { TS.defaultTSConfig with heartbeatInterval := 10000 } 0
        { stateC6 with isConnected := true }).watchdogDeadline =
        some 20000 ∧
      TS.heartbeatStale
        { TS.defaultTSConfig with heartbeatInterval := 10000 } 21000 0 =
        false) :=
  ⟨⟨by decide, by decide, by decide, by decide⟩,
    c6_watchdog_heartbeat_only TS.defaultTSConfig 15000 15000 stateC6
      { TS.emptyPayload with progressNum := some 10 } 10
      (by decide) (by decide) (by decide) (by decide)⟩

/-- A snapshot in the `cancelled` state, counted by none of the four
status counters. -/
def cancelledTaskC8 : TS.Task :=
  { status := some .cancelled, progress := 50, currentStep := none
    startTime := none, endTime := none, errorMessage := none
    duration := none, outputData := none }

/-- Claim C8 (counterexample): with two watched ids and a single
`cancelled` snapshot the four counters sum to 0 while `total` is 2, so
`pending + running + completed + failed = total` fails. -/
theorem c8_counterexample :
    (Batch.computeOverallStats ["a", "b"] [some cancelledTaskC8]).pendingTasks
        + (Batch.computeOverallStats ["a", "b"]
            [some cancelledTaskC8]).runningTasks
        + (Batch.computeOverallStats ["a", "b"]
            [some cancelledTaskC8]).completedTasks
        + (Batch.computeOverallStats ["a", "b"]
            [some cancelledTaskC8]).failedTasks = 0 ∧
    (Batch.computeOverallStats ["a", "b"] [some cancelledTaskC8]).totalTasks
      = 2 ∧
    (0 : Nat) ≠ 2 := by
  refine ⟨?_, ?_, ?_⟩ <;> decide

/-- Claim C8 (amended): after every recomputation the four status counters
sum to the number of snapshot entries whose status is one of
`pending`/`running`/`completed`/`failed`, while `total` is the number of
watched task ids; the two agree only when every watched id has such a
snapshot, and absent snapshots or `queued`/`cancelled`/`retrying`/`paused`
states make the sum fall short of `total`. -/
theorem c8_counts_sum_counted (ids : List String)
    (tasks : List (Option TS.Task)) :
    (Batch.computeOverallStats ids tasks).pendingTasks +
      (Batch.computeOverallStats ids tasks).runningTasks +
      (Batch.computeOverallStats ids tasks).completedTasks +
      (Batch.computeOverallStats ids tasks).failedTasks =
      (tasks.filter Batch.countedStatus).length ∧
    (Batch.computeOverallStats ids tasks).totalTasks = ids.length := by
  refine ⟨?_, rfl⟩
  unfold Batch.computeOverallStats
  dsimp only
  induction tasks with
  | nil => rfl
  | cons hd tl ih =>
    rcases hd with _ | u
    · simpa [Batch.countedStatus, List.filter_cons] using ih
    · rcases hu : u.status with _ | st
      · simp only [List.filter_cons, Batch.countedStatus, hu]
        simpa using ih
      · cases st <;>
          simp only [List.filter_cons, Batch.countedStatus, hu] <;>
          simp <;> omega

/-- A watched but disconnected stream that already made 3 reconnect
attempts. -/
def stateC9 : TS.TSState :=
  { TS.initialTSState "t9" with reconnectAttempts := 3 }

/-- Claim C9 (counterexample): on a page-visible signal the hook calls
`connect()` without resetting the attempt counter - the stream is opened
again but the counter stays at 3, contrary to the claimed reset to 0. -/
theorem c9_counterexample :
    (TS.tsHandleVisibility TS.defaultTSConfig 100 false
      stateC9).reconnectAttempts = 3 ∧
    (TS.tsHandleVisibility TS.defaultTSConfig 100 false stateC9).esPresent
      = true ∧
    (3 : Nat) ≠ 0 := by
  refine ⟨?_, ?_, ?_⟩ <;> decide

/-- Claim C9 (amended): hidden/offline signals disconnect a connected
stream (clearing its timers); an online signal reconnects a watched,
non-connected stream through `reconnect()`, which resets the attempt
counter to 0; a visible signal reconnects through `connect()`, which
leaves the attempt counter unchanged - the counter resets only when the
connection subsequently opens (`tsOpen`). -/
theorem c9_env_signals (cfg : TS.TSConfig) (now : Nat) (s t : TS.TSState)
    (hs : s.isConnected = true)
    (ht1 : t.isConnected = false)
    (ht2 : t.isConnecting = false)
    (ht3 : t.taskId ≠ "") :
    TS.tsHandleOffline s = TS.tsDisconnect s ∧
    TS.tsHandleVisibility cfg now true s = TS.tsDisconnect s ∧
    (TS.tsHandleOnline cfg now t).reconnectAttempts = 0 ∧
    (TS.tsHandleOnline cfg now t).esPresent = true ∧
    (TS.tsHandleVisibility cfg now false t).reconnectAttempts =
      t.reconnectAttempts ∧
    (TS.tsHandleVisibility cfg now false t).esPresent = true ∧
    (TS.tsOpen cfg now 5 t).reconnectAttempts = 0 := by
  refine ⟨?_, ?_, ?_, ?_, ?_, ?_, ?_⟩
  · unfold TS.tsHandleOffline
    simp [hs]
  · unfold TS.tsHandleVisibility
    simp [hs]
  · unfold TS.tsHandleOnline TS.tsReconnect TS.tsConnect TS.tsDisconnect
    simp [ht1, ht2, ht3]
  · unfold TS.tsHandleOnline TS.tsReconnect TS.tsConnect TS.tsDisconnect
    simp [ht1, ht2, ht3]
  · unfold TS.tsHandleVisibility TS.tsConnect TS.tsDisconnect
    simp [ht1, ht2, ht3]
  · unfold TS.tsHandleVisibility TS.tsConnect TS.tsDisconnect
    simp [ht1, ht2, ht3]
  · unfold TS.tsOpen
    split <;> rfl

/-- Claim C9 (witness): the amended statement applied to a connected
stream and to the disconnected `stateC9`. -/
theorem c9_env_signals_witness :
    (stateC6.isConnected = true ∧ stateC9.isConnected = false ∧
      stateC9.isConnecting = false ∧ stateC9.taskId ≠ "") ∧
    (TS.tsHandleOffline stateC6 = TS.tsDisconnect stateC6 ∧
      TS.tsHandleVisibility TS.defaultTSConfig 100 true stateC6 =
        TS.tsDisconnect stateC6 ∧
      (TS.tsHandleOnline TS.defaultTSConfig 100
        stateC9).reconnectAttempts = 0 ∧
      (TS.tsHandleOnline TS.defaultTSConfig 100 stateC9).esPresent = true ∧
      (TS.tsHandleVisibility TS.defaultTSConfig 100 false
        stateC9).reconnectAttempts = stateC9.reconnectAttempts ∧
      (TS.tsHandleVisibility TS.defaultTSConfig 100 false
        stateC9).esPresent = true ∧
      (TS.tsOpen TS.defaultTSConfig 100 5 stateC9).reconnectAttempts = 0) :=
  ⟨⟨by decide, by decide, by decide, by decide⟩,
    c9_env_signals TS.defaultTSConfig 100 stateC6 stateC9
      (by decide) (by decide) (by decide) (by decide)⟩
